import Mathlib

/-!
Verification of the Chicago employee salary dashboard (src/salaryapp.py) and
the demo dashboard (src/app.py). Payroll rows are modelled as records over ℚ,
tables as lists of records, and the pandas/numpy pipeline as pure list
functions translated line by line from the source.
-/

namespace Payroll

/-- One payroll row after the column rename in get_data (salaryapp.py lines
28-31): columns name, job_title, department, full_part_time, salary_hourly,
typical_hours, annual_salary, hourly_rate. -/
structure Record where
  name : String
  job_title : String
  department : String
  full_part_time : String
  salary_hourly : String
  typical_hours : ℚ
  annual_salary : ℚ
  hourly_rate : ℚ
deriving DecidableEq, Repr

/-- The derived annual_pay column (salaryapp.py lines 32-35): nested np.where
on the pay-basis column salary_hourly. -/
def annual_pay (r : Record) : ℚ :=
  if r.salary_hourly = "SALARY" then r.annual_salary
  else if r.salary_hourly = "HOURLY" then r.hourly_rate * r.typical_hours * 50
  else 0

/-- The sidebar filter state (salaryapp.py lines 49-85): chosen departments,
chosen employment types, and the inclusive annual-pay range from the slider. -/
structure Predicate where
  departments : List String
  employment_type : List String
  min_salary : ℚ
  max_salary : ℚ
deriving DecidableEq, Repr

/-- The filtered table (salaryapp.py lines 88-92): isin on department, isin on
full_part_time, and pandas between (inclusive on both ends) on annual_pay. -/
def filtered_data (T : List Record) (P : Predicate) : List Record :=
  T.filter fun r =>
    decide (r.department ∈ P.departments)
    && decide (r.full_part_time ∈ P.employment_type)
    && decide (P.min_salary ≤ annual_pay r)
    && decide (annual_pay r ≤ P.max_salary)

/-- C1: for every loaded payroll record, annual_pay equals annual_salary when
the pay basis is "SALARY", equals hourly_rate × typical_hours × 50 when the pay
basis is "HOURLY", and equals 0 for any other pay-basis value. -/
theorem annual_pay_piecewise (r : Record) :
    (r.salary_hourly = "SALARY" → annual_pay r = r.annual_salary) ∧
    (r.salary_hourly = "HOURLY" →
      annual_pay r = r.hourly_rate * r.typical_hours * 50) ∧
    (r.salary_hourly ≠ "SALARY" → r.salary_hourly ≠ "HOURLY" →
      annual_pay r = 0) := by
  refine ⟨fun h => ?_, fun h => ?_, fun h1 h2 => ?_⟩
  · simp [annual_pay, h]
  · have : r.salary_hourly ≠ "SALARY" := by simp [h]
    simp [annual_pay, this, h]
  · simp [annual_pay, h1, h2]

/-- Witness for annual_pay_piecewise at a concrete hourly record. -/
theorem annual_pay_piecewise_witness :
    annual_pay ⟨"A", "T", "D", "P", "HOURLY", 20, 0, 30⟩ = 30 * 20 * 50 :=
  (annual_pay_piecewise ⟨"A", "T", "D", "P", "HOURLY", 20, 0, 30⟩).2.1 rfl

/-- C2: a record is in the filtered table iff it is in the input table, its
department is among the chosen departments, its full/part-time code is among
the chosen employment types, and its annual_pay lies in the inclusive range
[min_salary, max_salary]. -/
theorem filtered_data_mem (T : List Record) (P : Predicate) (r : Record) :
    r ∈ filtered_data T P ↔
      r ∈ T ∧ r.department ∈ P.departments ∧
      r.full_part_time ∈ P.employment_type ∧
      P.min_salary ≤ annual_pay r ∧ annual_pay r ≤ P.max_salary := by
  simp [filtered_data, List.mem_filter, and_assoc]

/-- Rounding to n decimal places, modelling pandas Series.round(n). -/
def roundTo (n : ℕ) (x : ℚ) : ℚ := (round (x * 10 ^ n) : ℤ) / 10 ^ n

/-- Minimum of a list of rationals, as pandas Series.min on a nonempty
series; 0 is a junk value for the empty list, never relied on. -/
def listMin : List ℚ → ℚ
  | [] => 0
  | x :: xs => xs.foldl min x

/-- Maximum of a list of rationals, as pandas Series.max on a nonempty
series; 0 is a junk value for the empty list, never relied on. -/
def listMax : List ℚ → ℚ
  | [] => 0
  | x :: xs => xs.foldl max x

theorem foldl_min_le_init (l : List ℚ) (a : ℚ) : l.foldl min a ≤ a := by
  induction l generalizing a with
  | nil => simp
  | cons y ys ih => exact le_trans (ih (min a y)) (min_le_left a y)

theorem foldl_min_le_mem (l : List ℚ) (a x : ℚ) (hx : x ∈ l) :
    l.foldl min a ≤ x := by
  induction l generalizing a with
  | nil => cases hx
  | cons y ys ih =>
    rcases List.mem_cons.mp hx with h | h
    · subst h
      exact le_trans (foldl_min_le_init ys (min a x)) (min_le_right a x)
    · exact ih (min a y) h

theorem le_foldl_max_init (l : List ℚ) (a : ℚ) : a ≤ l.foldl max a := by
  induction l generalizing a with
  | nil => simp
  | cons y ys ih => exact le_trans (le_max_left a y) (ih (max a y))

theorem le_foldl_max_mem (l : List ℚ) (a x : ℚ) (hx : x ∈ l) :
    x ≤ l.foldl max a := by
  induction l generalizing a with
  | nil => cases hx
  | cons y ys ih =>
    rcases List.mem_cons.mp hx with h | h
    · subst h
      exact le_trans (le_max_right a x) (le_foldl_max_init ys (max a x))
    · exact ih (max a y) h

theorem listMin_le {l : List ℚ} {x : ℚ} (hx : x ∈ l) : listMin l ≤ x := by
  cases l with
  | nil => cases hx
  | cons y ys =>
    rcases List.mem_cons.mp hx with h | h
    · exact h ▸ foldl_min_le_init ys y
    · exact foldl_min_le_mem ys y x h

theorem le_listMax {l : List ℚ} {x : ℚ} (hx : x ∈ l) : x ≤ listMax l := by
  cases l with
  | nil => cases hx
  | cons y ys =>
    rcases List.mem_cons.mp hx with h | h
    · exact h ▸ le_foldl_max_init ys y
    · exact le_foldl_max_mem ys y x h

/-- One row of the per-department aggregate table dept_df (salaryapp.py lines
96-106). -/
structure DeptAgg where
  department : String
  employee_count : ℕ
  avg_salary : ℚ
  min_salary : ℚ
  max_salary : ℚ
  percentage : ℚ
deriving DecidableEq, Repr

/-- The distinct departments of the table, sorted ascending, as the group
keys produced by pandas groupby with its default key sorting. -/
def deptKeys (l : List Record) : List String :=
  List.insertionSort (· ≤ ·) (l.map (·.department)).dedup

/-- The aggregate row for one department (salaryapp.py lines 96-106): count,
mean, min, max of annual_pay each rounded to 2 decimals, and the share of the
filtered total as a percentage rounded to 1 decimal. -/
def deptAggOf (l : List Record) (d : String) : DeptAgg :=
  let g := l.filter fun r => r.department = d
  let pays := g.map annual_pay
  { department := d
    employee_count := g.length
    avg_salary := roundTo 2 (pays.sum / (g.length : ℚ))
    min_salary := roundTo 2 (listMin pays)
    max_salary := roundTo 2 (listMax pays)
    percentage := roundTo 1 ((g.length : ℚ) / (l.length : ℚ) * 100) }

/-- The per-department aggregate table (salaryapp.py lines 96-106): one row
per distinct department of the filtered table. -/
def dept_df (l : List Record) : List DeptAgg := (deptKeys l).map (deptAggOf l)

theorem deptAggOf_department (l : List Record) (d : String) :
    (deptAggOf l d).department = d := rfl

theorem dept_df_departments (l : List Record) :
    (dept_df l).map (·.department) = deptKeys l := by
  rw [dept_df, List.map_map]
  simp [Function.comp_def, deptAggOf_department]

/-- C3: every row of dept_df carries the size of its department group, the
group mean, min and max of annual_pay rounded to 2 decimals, and the share of
the filtered total rounded to 1 decimal; and dept_df has exactly one row per
distinct department of the filtered table. -/
theorem dept_df_spec (l : List Record) (hne : l ≠ []) (a : DeptAgg)
    (ha : a ∈ dept_df l) :
    a.employee_count = (l.filter fun r => r.department = a.department).length ∧
    a.avg_salary = roundTo 2
      (((l.filter fun r => r.department = a.department).map annual_pay).sum /
        ((l.filter fun r => r.department = a.department).length : ℚ)) ∧
    a.min_salary = roundTo 2
      (listMin ((l.filter fun r => r.department = a.department).map annual_pay)) ∧
    a.max_salary = roundTo 2
      (listMax ((l.filter fun r => r.department = a.department).map annual_pay)) ∧
    a.percentage = roundTo 1
      (((l.filter fun r => r.department = a.department).length : ℚ) /
        ((l.length : ℚ)) * 100) ∧
    ((dept_df l).map (·.department)).Perm (l.map (·.department)).dedup := by
  obtain ⟨d, _, rfl⟩ := List.mem_map.mp ha
  refine ⟨rfl, rfl, rfl, rfl, rfl, ?_⟩
  rw [dept_df_departments]
  exact List.perm_insertionSort _ _

/-- Example table from the spec: department A with pays 10, 20, 30 and
department B with pay 100, all salaried. -/
def exC3 : List Record :=
  [⟨"a1", "t", "A", "F", "SALARY", 0, 10, 0⟩,
   ⟨"a2", "t", "A", "F", "SALARY", 0, 20, 0⟩,
   ⟨"a3", "t", "A", "F", "SALARY", 0, 30, 0⟩,
   ⟨"b1", "t", "B", "F", "SALARY", 0, 100, 0⟩]

/-- Witness for dept_df_spec at the departments-A-and-B example table. -/
theorem dept_df_spec_witness :
    (deptAggOf exC3 "A").employee_count
      = (exC3.filter fun r =>
          r.department = (deptAggOf exC3 "A").department).length ∧
    (deptAggOf exC3 "A").avg_salary = roundTo 2
      (((exC3.filter fun r =>
          r.department = (deptAggOf exC3 "A").department).map annual_pay).sum /
        (((exC3.filter fun r =>
          r.department = (deptAggOf exC3 "A").department).length : ℚ))) ∧
    (deptAggOf exC3 "A").min_salary = roundTo 2
      (listMin ((exC3.filter fun r =>
          r.department = (deptAggOf exC3 "A").department).map annual_pay)) ∧
    (deptAggOf exC3 "A").max_salary = roundTo 2
      (listMax ((exC3.filter fun r =>
          r.department = (deptAggOf exC3 "A").department).map annual_pay)) ∧
    (deptAggOf exC3 "A").percentage = roundTo 1
      (((exC3.filter fun r =>
          r.department = (deptAggOf exC3 "A").department).length : ℚ) /
        ((exC3.length : ℚ)) * 100) ∧
    ((dept_df exC3).map (·.department)).Perm (exC3.map (·.department)).dedup :=
  dept_df_spec exC3 (by decide) (deptAggOf exC3 "A") (by
    have h1 : ("A" : String) ≤ "B" := by rw [String.le_iff_toList_le]; decide
    have hkeys : deptKeys exC3 = ["A", "B"] := by
      simp [deptKeys, exC3, List.insertionSort, List.orderedInsert, h1]
    rw [dept_df, hkeys]
    simp)

/-- The descending-annual-pay order used by nlargest and by sort_values with
ascending=False (salaryapp.py line 248). -/
def payGE (a b : Record) : Prop := annual_pay b ≤ annual_pay a

instance : DecidableRel payGE :=
  fun a b => inferInstanceAs (Decidable (annual_pay b ≤ annual_pay a))

instance : IsTotal Record payGE :=
  ⟨fun a b => le_total (annual_pay b) (annual_pay a)⟩

instance : IsTrans Record payGE :=
  ⟨fun _ _ _ hab hbc => le_trans hbc hab⟩

/-- The filtered table sorted by annual_pay descending; stable, matching the
tie behaviour of nlargest with its default keep="first". -/
def sortDescPay (l : List Record) : List Record := List.insertionSort payGE l

/-- top_n (salaryapp.py line 248): nlargest(n, annual_pay) followed by
sort_values descending, i.e. the first n rows of the descending sort. -/
def top_n (l : List Record) (n : ℕ) : List Record := (sortDescPay l).take n

/-- The rank column (salaryapp.py line 249): range(1, len(top_n) + 1). -/
def rank_col (l : List Record) (n : ℕ) : List ℕ :=
  List.range' 1 (top_n l n).length

/-- C4: with n between 1 and 100 and at least n filtered records, top_n keeps
exactly n records, in descending annual_pay order, and they are the initial
segment of a descending sort of the whole filtered table (so every kept record
pays at least as much as every dropped one), with ranks 1 through n. -/
theorem top_n_spec (l : List Record) (n : ℕ) (h1 : 1 ≤ n) (h2 : n ≤ 100)
    (h3 : n ≤ l.length) :
    (top_n l n).length = n ∧
    (top_n l n).Pairwise payGE ∧
    top_n l n ++ (sortDescPay l).drop n = sortDescPay l ∧
    (sortDescPay l).Perm l ∧
    (sortDescPay l).Pairwise payGE ∧
    rank_col l n = List.range' 1 n := by
  have hsortlen : (sortDescPay l).length = l.length :=
    List.length_insertionSort payGE l
  have hlen : (top_n l n).length = n := by
    rw [top_n, List.length_take, hsortlen]
    exact min_eq_left h3
  have hsorted : (sortDescPay l).Pairwise payGE :=
    List.sorted_insertionSort payGE l
  refine ⟨hlen, hsorted.sublist (List.take_sublist n _), ?_, ?_, hsorted, ?_⟩
  · exact List.take_append_drop n (sortDescPay l)
  · exact List.perm_insertionSort payGE l
  · rw [rank_col, hlen]

/-- Example table with annual pays 5, 50, 500, 5000, 50000. -/
def exC4 : List Record :=
  [⟨"e1", "t", "D", "F", "SALARY", 0, 5, 0⟩,
   ⟨"e2", "t", "D", "F", "SALARY", 0, 50, 0⟩,
   ⟨"e3", "t", "D", "F", "SALARY", 0, 500, 0⟩,
   ⟨"e4", "t", "D", "F", "SALARY", 0, 5000, 0⟩,
   ⟨"e5", "t", "D", "F", "SALARY", 0, 50000, 0⟩]

/-- Witness for top_n_spec at the five-record example with n = 3. -/
theorem top_n_spec_witness :
    (top_n exC4 3).length = 3 ∧
    (top_n exC4 3).Pairwise payGE ∧
    top_n exC4 3 ++ (sortDescPay exC4).drop 3 = sortDescPay exC4 ∧
    (sortDescPay exC4).Perm exC4 ∧
    (sortDescPay exC4).Pairwise payGE ∧
    rank_col exC4 3 = List.range' 1 3 :=
  top_n_spec exC4 3 (by decide) (by decide) (by decide)

/-- C10: when fewer than n records remain after filtering, top_n returns all
of them, still sorted descending by annual_pay and ranked 1 through the actual
count, without padding or failing. -/
theorem top_n_short_spec (l : List Record) (n : ℕ) (h : l.length < n) :
    top_n l n = sortDescPay l ∧
    (top_n l n).length = l.length ∧
    (top_n l n).Pairwise payGE ∧
    (top_n l n).Perm l ∧
    rank_col l n = List.range' 1 l.length := by
  have hsortlen : (sortDescPay l).length = l.length :=
    List.length_insertionSort payGE l
  have hall : top_n l n = sortDescPay l :=
    List.take_of_length_le (hsortlen ▸ le_of_lt h)
  have hsorted : (sortDescPay l).Pairwise payGE :=
    List.sorted_insertionSort payGE l
  refine ⟨hall, ?_, hall ▸ hsorted, hall ▸ List.perm_insertionSort payGE l, ?_⟩
  · rw [hall, hsortlen]
  · rw [rank_col, hall, hsortlen]

/-- Example table with only two records. -/
def exC10 : List Record :=
  [⟨"e1", "t", "D", "F", "SALARY", 0, 70000, 0⟩,
   ⟨"e2", "t", "D", "F", "SALARY", 0, 90000, 0⟩]

/-- Witness for top_n_short_spec: two records, n = 10. -/
theorem top_n_short_spec_witness :
    top_n exC10 10 = sortDescPay exC10 ∧
    (top_n exC10 10).length = exC10.length ∧
    (top_n exC10 10).Pairwise payGE ∧
    (top_n exC10 10).Perm exC10 ∧
    rank_col exC10 10 = List.range' 1 exC10.length :=
  top_n_short_spec exC10 10 (by decide)

/-- Python int() applied to a rational: truncation toward zero. -/
def truncQ (q : ℚ) : ℤ := if 0 ≤ q then ⌊q⌋ else ⌈q⌉

/-- min_value (salaryapp.py line 130): bin_width times the floor of the
observed minimum annual_pay divided by bin_width. -/
def min_value (l : List Record) (w : ℚ) : ℚ :=
  w * (⌊listMin (l.map annual_pay) / w⌋ : ℤ)

/-- max_value (salaryapp.py line 131): bin_width times the ceiling of the
observed maximum annual_pay divided by bin_width. -/
def max_value (l : List Record) (w : ℚ) : ℚ :=
  w * (⌈listMax (l.map annual_pay) / w⌉ : ℤ)

/-- num_bins (salaryapp.py line 133): int((max_value - min_value) / bin_width),
where int() truncates toward zero. -/
def num_bins (l : List Record) (w : ℚ) : ℤ :=
  truncQ ((max_value l w - min_value l w) / w)

/-- np.linspace(a, b, num): num evenly spaced points from a to b, endpoint
included; in ℚ the num = 1 case also falls out of the formula because
division by zero is zero. -/
def linspace (a b : ℚ) (num : ℕ) : List ℚ :=
  (List.range num).map fun i : ℕ => a + (i : ℚ) * (b - a) / ((num : ℚ) - 1)

/-- bin_edges (salaryapp.py lines 136-140): linspace from min_value to
max_value with num_bins + 1 points. -/
def bin_edges (l : List Record) (w : ℚ) : List ℚ :=
  linspace (min_value l w) (max_value l w) (num_bins l w + 1).toNat

/-- C5: for a nonempty filtered table and any of the four offered bin widths,
the histogram grid starts at bin_width times the floor of the observed minimum
over bin_width, ends at bin_width times the ceiling of the observed maximum
over bin_width, has (max_value - min_value) / bin_width bins, and its edge
list is exactly the num_bins + 1 points min_value, min_value + bin_width, ...
up to max_value. -/
theorem bin_edges_spec (l : List Record) (w : ℚ) (hne : l ≠ [])
    (hw : w = 1000 ∨ w = 5000 ∨ w = 10000 ∨ w = 20000) :
    min_value l w = w * (⌊listMin (l.map annual_pay) / w⌋ : ℤ) ∧
    max_value l w = w * (⌈listMax (l.map annual_pay) / w⌉ : ℤ) ∧
    ((num_bins l w : ℚ)) = (max_value l w - min_value l w) / w ∧
    bin_edges l w = (List.range ((num_bins l w).toNat + 1)).map
      (fun i : ℕ => min_value l w + (i : ℚ) * w) := by
  have hwpos : (0 : ℚ) < w := by rcases hw with rfl | rfl | rfl | rfl <;> norm_num
  have hwne : w ≠ 0 := ne_of_gt hwpos
  obtain ⟨r, hr⟩ := List.exists_mem_of_ne_nil l hne
  have hpay : annual_pay r ∈ l.map annual_pay := List.mem_map_of_mem annual_pay hr
  have hmM : listMin (l.map annual_pay) ≤ listMax (l.map annual_pay) :=
    le_trans (listMin_le hpay) (le_listMax hpay)
  set m := listMin (l.map annual_pay) with hm
  set M := listMax (l.map annual_pay) with hM
  set a : ℤ := ⌊m / w⌋ with ha
  set b : ℤ := ⌈M / w⌉ with hb
  have hab : a ≤ b := by
    have h1 : m / w ≤ M / w := by gcongr
    calc a ≤ ⌊M / w⌋ := Int.floor_mono h1
      _ ≤ b := Int.floor_le_ceil _
  have hq : (max_value l w - min_value l w) / w = ((b - a : ℤ) : ℚ) := by
    rw [max_value, min_value, ← hm, ← hM, ← ha, ← hb, ← mul_sub]
    field_simp
  have hnum : num_bins l w = b - a := by
    rw [num_bins, hq]
    have hbann : (0 : ℚ) ≤ ((b - a : ℤ) : ℚ) := by
      have : (0 : ℤ) ≤ b - a := sub_nonneg.mpr hab
      exact_mod_cast this
    rw [truncQ, if_pos hbann, Int.floor_intCast]
  have hnumnn : 0 ≤ num_bins l w := hnum ▸ sub_nonneg.mpr hab
  have hcast : ((num_bins l w : ℚ)) = (max_value l w - min_value l w) / w := by
    rw [hq, hnum]
  refine ⟨rfl, rfl, hcast, ?_⟩
  have htn : (num_bins l w + 1).toNat = (num_bins l w).toNat + 1 := by omega
  have htq : ((num_bins l w).toNat : ℚ) = ((num_bins l w : ℤ) : ℚ) := by
    exact_mod_cast Int.toNat_of_nonneg hnumnn
  have hba : max_value l w - min_value l w = w * ((num_bins l w : ℤ) : ℚ) := by
    rw [hcast, mul_comm, div_mul_cancel₀ _ hwne]
  rcases eq_or_ne (num_bins l w) 0 with h0 | h0
  · rw [bin_edges, h0]
    norm_num [linspace, List.range_succ]
  · have hkne : ((num_bins l w : ℤ) : ℚ) ≠ 0 := by exact_mod_cast h0
    rw [bin_edges, htn, linspace]
    have hcnt : (((num_bins l w).toNat + 1 : ℕ) : ℚ) - 1
        = ((num_bins l w : ℤ) : ℚ) := by
      push_cast [htq]
      ring
    refine congrArg (fun f => List.map f (List.range ((num_bins l w).toNat + 1)))
      (funext fun i => ?_)
    rw [hcnt, hba]
    field_simp
    ring

/-- Example table whose observed annual_pay range is [23456, 187654]. -/
def exC5 : List Record :=
  [⟨"e1", "t", "D", "F", "SALARY", 0, 23456, 0⟩,
   ⟨"e2", "t", "D", "F", "SALARY", 0, 187654, 0⟩]

theorem exC5_listMin : listMin (exC5.map annual_pay) = 23456 := by
  norm_num [exC5, annual_pay, listMin, List.foldl, min_def]

theorem exC5_listMax : listMax (exC5.map annual_pay) = 187654 := by
  norm_num [exC5, annual_pay, listMax, List.foldl, max_def]

theorem exC5_floor : (⌊(23456 : ℚ) / 10000⌋ : ℤ) = 2 := by norm_num

theorem exC5_ceil : (⌈(187654 : ℚ) / 10000⌉ : ℤ) = 19 := by
  rw [Int.ceil_eq_iff]
  norm_num

theorem exC5_min_value : min_value exC5 10000 = 20000 := by
  rw [min_value, exC5_listMin, exC5_floor]
  norm_num

theorem exC5_max_value : max_value exC5 10000 = 190000 := by
  rw [max_value, exC5_listMax, exC5_ceil]
  norm_num

theorem exC5_num_bins : num_bins exC5 10000 = 17 := by
  rw [num_bins, exC5_max_value, exC5_min_value]
  norm_num [truncQ]

/-- Witness for bin_edges_spec at the spec example: pays 23456 and 187654
with bin width 10000 give 17 bins and 18 edges from 20000 to 190000. -/
theorem bin_edges_spec_witness :
    (min_value exC5 10000
        = 10000 * (⌊listMin (exC5.map annual_pay) / 10000⌋ : ℤ) ∧
      max_value exC5 10000
        = 10000 * (⌈listMax (exC5.map annual_pay) / 10000⌉ : ℤ) ∧
      ((num_bins exC5 10000 : ℚ))
        = (max_value exC5 10000 - min_value exC5 10000) / 10000 ∧
      bin_edges exC5 10000 = (List.range ((num_bins exC5 10000).toNat + 1)).map
        (fun i : ℕ => min_value exC5 10000 + (i : ℚ) * 10000)) ∧
    num_bins exC5 10000 = 17 ∧
    min_value exC5 10000 = 20000 ∧
    max_value exC5 10000 = 190000 :=
  ⟨bin_edges_spec exC5 10000 (by decide) (Or.inr (Or.inr (Or.inl rfl))),
   exC5_num_bins, exC5_min_value, exC5_max_value⟩

/-- The histogram bin count guarded for emptiness: pandas Series.min and
Series.max over an empty column are NaN, and int(NaN) on salaryapp.py line
133 raises ValueError, so on an empty filtered table the bin computation has
no value; none models that failure. -/
def num_bins? (l : List Record) (w : ℚ) : Option ℤ :=
  if l = [] then none else some (num_bins l w)

/-- Series.mode()[0] (salaryapp.py line 302): the most frequent value, modal
values sorted ascending so index 0 is the smallest; indexing the empty mode
series of an empty column raises KeyError, so the empty case has no value. -/
def mode? (l : List String) : Option String :=
  (List.insertionSort (· ≤ ·) l.dedup).foldl
    (fun acc d =>
      match acc with
      | none => some d
      | some e =>
        if (l.filter (· = e)).length < (l.filter (· = d)).length then some d
        else acc)
    none

/-- C6: a predicate selecting zero departments filters out every record, and
on the resulting empty table the downstream computations fail rather than
degrade: the histogram bin count (int of NaN) and the top-earner
most-common-department lookup (mode()[0] of an empty column) have no value. -/
theorem empty_departments_filter (T : List Record) (ets : List String)
    (lo hi : ℚ) (w : ℚ) (n : ℕ) :
    filtered_data T ⟨[], ets, lo, hi⟩ = [] ∧
    num_bins? (filtered_data T ⟨[], ets, lo, hi⟩) w = none ∧
    mode? ((top_n (filtered_data T ⟨[], ets, lo, hi⟩) n).map (·.department))
      = none := by
  have hempty : filtered_data T ⟨[], ets, lo, hi⟩ = [] := by
    simp [filtered_data]
  refine ⟨hempty, ?_, ?_⟩
  · rw [hempty]
    rfl
  · rw [hempty]
    simp [top_n, sortDescPay, mode?, List.insertionSort]

/-- A row of the civic open-data feed (app.py): a bag of named fields. -/
abbrev CivicRow := List (String × String)

/-- An HTTP response as fetch_data sees it: status code and parsed JSON body
as rows. -/
structure HttpResponse where
  status_code : ℕ
  json : List CivicRow
deriving DecidableEq, Repr

/-- The outcome of fetch_data: the returned table and the text passed to
st.error, when any. -/
structure FetchResult where
  table : List CivicRow
  shown_error : Option String
deriving DecidableEq, Repr

/-- fetch_data (app.py lines 11-20): on status 200 return a table built from
the JSON body; on any other status show the error text and return an empty
table. Total function: no exception escapes. -/
def fetch_data (resp : HttpResponse) : FetchResult :=
  if resp.status_code = 200 then { table := resp.json, shown_error := none }
  else
    { table := [],
      shown_error :=
        some ("Failed to fetch data: " ++ toString resp.status_code) }

/-- C7: a 200 response yields the parsed body as the table with no error; any
other status yields an empty table and a user-visible message of the form
"Failed to fetch data: {status_code}", with no exception (the function is
total). -/
theorem fetch_data_spec (resp : HttpResponse) :
    (resp.status_code = 200 →
      fetch_data resp = { table := resp.json, shown_error := none }) ∧
    (resp.status_code ≠ 200 →
      fetch_data resp
        = { table := [],
            shown_error :=
              some ("Failed to fetch data: " ++ toString resp.status_code) }) := by
  constructor <;> intro h <;> simp [fetch_data, h]

/-- Witness for fetch_data_spec at a simulated 404 response. -/
theorem fetch_data_spec_witness :
    (404 : ℕ) ≠ 200 ∧
    fetch_data ⟨404, []⟩
      = { table := [], shown_error := some "Failed to fetch data: 404" } :=
  ⟨by decide, (fetch_data_spec ⟨404, []⟩).2 (by decide)⟩

/-- Python int() truncation applied to the observed pay extremes, as the
slider bounds and default (salaryapp.py lines 80-85). -/
structure Slider where
  lo : ℤ
  hi : ℤ
  default_lo : ℤ
  default_hi : ℤ
deriving DecidableEq, Repr

/-- The annual-pay range slider (salaryapp.py lines 80-85): bounds are
int(min) and int(max) of the annual_pay column and the default selection is
that same pair. -/
def pay_slider (T : List Record) : Slider :=
  { lo := truncQ (listMin (T.map annual_pay))
    hi := truncQ (listMax (T.map annual_pay))
    default_lo := truncQ (listMin (T.map annual_pay))
    default_hi := truncQ (listMax (T.map annual_pay)) }

/-- Table with a single hourly record paying 2.01 × 1 × 50 = 100.5 a year. -/
def exC8 : List Record :=
  [⟨"e1", "t", "D", "P", "HOURLY", 1, 0, 201/100⟩]

theorem exC8_listMax : listMax (exC8.map annual_pay) = 201 / 2 := by
  simp [exC8, annual_pay, listMax]
  norm_num

theorem exC8_listMin : listMin (exC8.map annual_pay) = 201 / 2 := by
  simp [exC8, annual_pay, listMin]
  norm_num

/-- Counterexample to C8 as stated: with observed maximum annual_pay 100.5
the slider upper bound is int(100.5) = 100, not the claimed ceiling 101. -/
theorem pay_slider_counterexample :
    (pay_slider exC8).hi = 100 ∧
    (⌈listMax (exC8.map annual_pay)⌉ : ℤ) = 101 := by
  constructor
  · show truncQ (listMax (exC8.map annual_pay)) = 100
    rw [exC8_listMax, truncQ, if_pos (by norm_num : (0:ℚ) ≤ 201/2)]
    norm_num
  · rw [exC8_listMax, Int.ceil_eq_iff]
    norm_num

/-- C8 amended: the slider lower bound is the integer truncation of the
observed minimum annual_pay (the floor, for nonnegative pays), the upper
bound is the integer truncation of the observed maximum (not its ceiling),
and the default selection is exactly that truncated range. -/
theorem pay_slider_spec (T : List Record)
    (h0 : 0 ≤ listMin (T.map annual_pay)) :
    (pay_slider T).lo = ⌊listMin (T.map annual_pay)⌋ ∧
    (pay_slider T).hi = truncQ (listMax (T.map annual_pay)) ∧
    (pay_slider T).default_lo = (pay_slider T).lo ∧
    (pay_slider T).default_hi = (pay_slider T).hi := by
  refine ⟨?_, rfl, rfl, rfl⟩
  show truncQ (listMin (T.map annual_pay)) = ⌊listMin (T.map annual_pay)⌋
  rw [truncQ, if_pos h0]

/-- Witness for pay_slider_spec at the single-hourly-record table. -/
theorem pay_slider_spec_witness :
    (pay_slider exC8).lo = ⌊listMin (exC8.map annual_pay)⌋ ∧
    (pay_slider exC8).hi = truncQ (listMax (exC8.map annual_pay)) ∧
    (pay_slider exC8).default_lo = (pay_slider exC8).lo ∧
    (pay_slider exC8).default_hi = (pay_slider exC8).hi :=
  pay_slider_spec exC8 (by rw [exC8_listMin]; norm_num)

/-- all_departments (salaryapp.py line 49): sorted distinct department values
of the loaded table. -/
def all_departments (T : List Record) : List String :=
  List.insertionSort (· ≤ ·) (T.map (·.department)).dedup

/-- The department selection (salaryapp.py lines 50-58): with the select-all
checkbox on, every department; with it off, the multiselect value, whose
untouched default (modelled as none) is again the full sorted list. -/
def departments (T : List Record) (select_all_depts : Bool)
    (multiselect : Option (List String)) : List String :=
  if select_all_depts then all_departments T
  else multiselect.getD (all_departments T)

/-- C9: with the select-all checkbox on, the selected department set is the
full sorted distinct set observed in the data, whatever the multiselect
holds; with it off and the multiselect untouched, the selection is the same
full set, so the toggle alone leaves the filter predicate unchanged. -/
theorem select_all_identity (T : List Record) (ms : Option (List String)) :
    departments T true ms = all_departments T ∧
    departments T false none = all_departments T ∧
    departments T true ms = departments T false none ∧
    (all_departments T).Sorted (· ≤ ·) ∧
    (all_departments T).Perm (T.map (·.department)).dedup :=
  ⟨rfl, rfl, rfl, List.sorted_insertionSort _ _, List.perm_insertionSort _ _⟩

end Payroll
